import Mathlib

/-!
Verification development for the MediTrace shipment audit-trail backend.

The definitions below are a shallow embedding of the JavaScript source:

* `src/backend/controllers/shipmentController.js` — the shipment controller.
  The file contains two concatenated variants of the handlers; the later
  assignments to `exports` are the effective ones.  We embed the effective
  (validated) variant as `updateShipmentStatusWithNote`, `getShipmentNotes`,
  `getAllShipments`, and the earlier signed-transaction variant as
  `updateShipmentStatusWithNoteV1`.
* `src/backend/controllers/medicineController.js` — `getMedicineStage`.
* `src/backend/config/web3.js` — wallet initialisation (`initWallet`).

JSON numbers are modelled as rationals (JSON has no NaN/Infinity); JS string
truthiness of request fields is modelled by comparing with the empty string;
an absent `status` field is `Option.none`.  The remote ledger (the Solidity
contract, not part of the backend sources) and the mirror persistence are
modelled from the spec, §6: the write call reverts with a
domain-distinguishable "Shipment not found" reason when the tracking id is
unknown; the read call returns the ordered note sequence or reverts likewise;
mirror absence is not an error, and mirror operations may fail.
-/

namespace MediTrace

/-- A JS request `status` field that is present: either a string or a number
(JSON numbers modelled as rationals). -/
inductive StatusInput where
  | str (s : String)
  | num (q : ℚ)
  deriving DecidableEq, Repr

/-- The value JS bracket lookup on the `ShipmentStatus` object can produce:
a number (an own enum value, or the caller's numeric input), `undefined`, or
a member inherited from `Object.prototype` (a function or object, not a
number — bracket lookup walks the prototype chain). -/
inductive StatusNumValue where
  | jsUndefined
  | num (q : ℚ)
  | protoMember (name : String)
  deriving DecidableEq, Repr

/-- The property names the `ShipmentStatus` object literal inherits from
`Object.prototype`, for which bracket lookup returns a non-`undefined`
function or object. -/
def objectPrototypeKeys : List String :=
  ["constructor", "hasOwnProperty", "isPrototypeOf", "propertyIsEnumerable",
   "toLocaleString", "toString", "valueOf",
   "__defineGetter__", "__defineSetter__", "__lookupGetter__",
   "__lookupSetter__", "__proto__"]

/-- The `ShipmentStatus` enum object of shipmentController.js:
`{ Pending: 0, InTransit: 1, Delivered: 2 }`.  Bracket lookup on the three
own keys yields their numbers; on an `Object.prototype` member name it
yields the inherited function/object; on any other key it yields
`undefined`. -/
def ShipmentStatus (s : String) : StatusNumValue :=
  if s = "Pending" then .num 0
  else if s = "InTransit" then .num 1
  else if s = "Delivered" then .num 2
  else if s ∈ objectPrototypeKeys then .protoMember s
  else .jsUndefined

/-- Line 275: `const statusNum = typeof status === 'string' ? ShipmentStatus[status] : status;` -/
def statusNum : StatusInput → StatusNumValue
  | .str s => ShipmentStatus s
  | .num q => .num q

/-- JS `statusNum === undefined`. -/
def isUndef : StatusNumValue → Bool
  | .jsUndefined => true
  | _ => false

/-- JS `statusNum < 0`: false for `undefined` and for inherited
functions/objects (their numeric coercion is NaN, and NaN comparisons are
false). -/
def statusNumLt0 : StatusNumValue → Bool
  | .num q => decide (q < 0)
  | _ => false

/-- JS `statusNum > 2`: false for `undefined` and for inherited
functions/objects (NaN comparisons are false). -/
def statusNumGt2 : StatusNumValue → Bool
  | .num q => decide (2 < q)
  | _ => false

/-- Line 276: the status is rejected when
`statusNum === undefined || statusNum < 0 || statusNum > 2`;
`statusValid` is the negation of that test. -/
def statusValid (si : StatusInput) : Bool :=
  !(isUndef (statusNum si)) && !(statusNumLt0 (statusNum si))
    && !(statusNumGt2 (statusNum si))

/-- The `code` property of a thrown error: ethers.js-style errors carry
string codes such as `"INVALID_ARGUMENT"`, while web3.js v4 errors carry
numeric codes (e.g. 1100 for validator errors). -/
inductive JsErrorCode where
  | strCode (s : String)
  | numCode (n : Nat)
  deriving DecidableEq, Repr

/-- A JS error value as observed by the controller's catch blocks:
its `message` string and optional `code` property. -/
structure JsError where
  message : String
  code : Option JsErrorCode
  deriving DecidableEq, Repr

/-- Does the second character list occur at the head of the first? -/
def charsHavePrefix : List Char → List Char → Bool
  | _, [] => true
  | [], _ :: _ => false
  | c :: cs, d :: ds => c == d && charsHavePrefix cs ds

/-- Does the second character list occur anywhere inside the first? -/
def charsContain : List Char → List Char → Bool
  | [], sub => sub.isEmpty
  | c :: cs, sub => charsHavePrefix (c :: cs) sub || charsContain cs sub

/-- JS `String.prototype.includes`, used by the catch-block classification. -/
def jsIncludes (s sub : String) : Bool :=
  charsContain s.data sub.data

/-- A note stored on the ledger for a shipment, as returned by the contract's
`getShipmentNotes` view: status code, free text, block timestamp, author. -/
structure Note where
  status : Nat
  note : String
  timestamp : Nat
  updatedBy : String
  deriving DecidableEq, Repr

/-- Modelled from the spec: the remote ledger's state visible to the backend —
the known tracking ids with their ordered note sequences, plus the signing
identity's transaction count (sequence counter). -/
structure LedgerState where
  shipments : List (String × List Note)
  txCount : Nat
  deriving DecidableEq, Repr

/-- Look up a shipment's note list on the ledger (`none` = unknown id). -/
def LedgerState.lookup (σ : LedgerState) (tid : String) : Option (List Note) :=
  (σ.shipments.find? (fun p => p.1 == tid)).map Prod.snd

/-- Append a note to an existing shipment's sequence and advance the
signing identity's transaction count. -/
def LedgerState.append (σ : LedgerState) (tid : String) (n : Note) : LedgerState :=
  { shipments := σ.shipments.map (fun p => if p.1 == tid then (p.1, p.2 ++ [n]) else p),
    txCount := σ.txCount + 1 }

/-- Client-side ABI encoding of the status argument as an unsigned integer:
succeeds exactly on non-negative integer numbers; `undefined` and inherited
functions/objects fail web3's argument validation before any RPC is made. -/
def encodeUintArg : StatusNumValue → Option Nat
  | .num q => if q.den = 1 && 0 ≤ q.num then some q.num.toNat else none
  | _ => none

/-- The mirror store's record for a shipment (the mongoose `Shipment` model,
modelled from the spec's mirror persistence interface; `status` is a JS
property that may be `undefined`). -/
structure MirrorRec where
  mid : String
  medicineId : Nat
  sender : String
  receiver : String
  trackingId : String
  status : Option String
  createdAt : String
  deriving DecidableEq, Repr

/-- Mirror lookup: `Shipment.findOne({ trackingId })`. -/
def findMirror (m : List MirrorRec) (tid : String) : Option MirrorRec :=
  m.find? (fun r => r.trackingId == tid)

/-- Mirror update: set the cached status of the record with this tracking id. -/
def setMirrorStatus (m : List MirrorRec) (tid : String) (s : Option String) : List MirrorRec :=
  m.map (fun r => if r.trackingId == tid then { r with status := s } else r)

/-- Line 302/133: `Object.keys(ShipmentStatus).find(key => ShipmentStatus[key] === statusNum)`
— `Object.keys` returns only the three own keys, and `===` with their
numbers can only hold for a numeric `statusNum`. -/
def statusName : StatusNumValue → Option String
  | .num q =>
      if q = 0 then some "Pending"
      else if q = 1 then some "InTransit"
      else if q = 2 then some "Delivered"
      else none
  | _ => none

/-- The enum-name lookup applied to an on-chain status code. -/
def statusNameOfNat (k : Nat) : Option String :=
  statusName (.num (k : ℚ))

/-- A note as formatted by `getShipmentNotes` for the response (lines 357-364). -/
structure FormattedNote where
  status : Nat
  statusName : Option String
  note : String
  timestamp : Nat
  timestampFormatted : String
  updatedBy : String
  deriving DecidableEq, Repr

/-- A JSON value occurring in a response body field. -/
inductive JVal where
  | jstr (v : String)
  | jnum (v : ℚ)
  | jnat (v : Nat)
  | jbool (v : Bool)
  | jnull
  | jnotes (vs : List FormattedNote)
  | jships (vs : List MirrorRec)
  deriving DecidableEq, Repr

/-- A response body: a JSON object (ordered field list) or a top-level array
of shipment records (for `res.json(shipments)`). -/
inductive ResponseBody where
  | obj (fields : List (String × JVal))
  | arr (vs : List MirrorRec)
  deriving DecidableEq, Repr

/-- An HTTP response: status code and JSON body. -/
structure HttpResponse where
  status : Nat
  body : ResponseBody
  deriving DecidableEq, Repr

/-- Does the response body (when an object) have a field with this key? -/
def ResponseBody.hasKey : ResponseBody → String → Bool
  | .obj fs, k => fs.any (fun p => p.1 == k)
  | .arr _, _ => false

/-- The ordered field names of an object response body. -/
def ResponseBody.keys : ResponseBody → List String
  | .obj fs => fs.map Prod.fst
  | .arr _ => []

/-- One observable interaction with the web3 layer / remote ledger:
`methodCall` is the client-side contract method invocation with the raw
arguments as passed by the controller; `getTxCount`, `getGasPrice` and
`sendTx` are actual RPCs; `getNotes` is the read call. -/
inductive LedgerCall where
  | getTxCount
  | getGasPrice
  | methodCall (tid : String) (statusArg : StatusNumValue) (note : String)
  | sendTx (tid : String) (statusArg : Nat) (note : String)
  | getNotes (tid : String)
  deriving DecidableEq, Repr

/-- The environment a single request runs in: transport failure of the RPC
node (if any), the block timestamp and receipt fields the ledger produces on
confirmation, whether the mirror store's operations throw, the JS `Date`
ISO formatter, and the address derivation for a private key. -/
structure Env where
  transport : Option JsError
  blockTime : Nat
  txHash : String
  blockNumber : Nat
  mirrorFails : Bool
  formatIso : Nat → String
  privToAddr : String → String

/-- The wallet configuration established at process startup
(`src/backend/config/web3.js` plus the controller's env reads). -/
structure WalletCfg where
  defaultAccount : Option String
  ownerAddress : Option String
  ownerPrivateKey : Option String

/-- The mutable system state a handler can affect: ledger plus mirror store. -/
structure SystemState where
  ledger : LedgerState
  mirror : List MirrorRec
  deriving DecidableEq, Repr

/-- Web3.js private-key normalisation (config/web3.js line 9):
`'0x' + key.replace('0x', '')`. -/
def normalizeKey (k : String) : String :=
  "0x" ++ (if "0x".isPrefixOf k then k.drop 2 else k)

/-- Wallet initialisation at module load (config/web3.js lines 8-13): when
`OWNER_PRIVATE_KEY` is set, the derived account address becomes the default
account; executed once at startup, never per request. -/
def initWallet (privToAddr : String → String)
    (ownerPrivateKeyEnv ownerAddressEnv : Option String) : WalletCfg :=
  match ownerPrivateKeyEnv with
  | some k =>
      { defaultAccount := some (privToAddr (normalizeKey k)),
        ownerAddress := ownerAddressEnv,
        ownerPrivateKey := some (normalizeKey k) }
  | none =>
      { defaultAccount := none,
        ownerAddress := ownerAddressEnv,
        ownerPrivateKey := none }

/-- The 400 response for missing request fields (lines 268-272). -/
def missingFieldsResp : HttpResponse :=
  ⟨400, .obj [("error", .jstr "Missing required fields: trackingId, status, and note are required")]⟩

/-- The 400 response for an invalid status value (lines 276-280). -/
def invalidStatusResp : HttpResponse :=
  ⟨400, .obj [("error", .jstr "Invalid status. Must be 'Pending' (0), 'InTransit' (1), or 'Delivered' (2)")]⟩

/-- The catch-block classification of the validated update handler
(lines 315-341): revert reasons map to 400 with a domain reason, argument
errors map to 400, everything else to the generic 500. -/
def catchUpdate (e : JsError) : HttpResponse :=
  if jsIncludes e.message "revert" then
    if jsIncludes e.message "Shipment not found" then
      ⟨400, .obj [("error", .jstr "Shipment not found on blockchain"), ("details", .jstr e.message)]⟩
    else
      ⟨400, .obj [("error", .jstr "Transaction reverted by contract"), ("details", .jstr e.message)]⟩
  else if e.code == some (.strCode "INVALID_ARGUMENT")
      || e.code == some (.strCode "CALL_EXCEPTION") then
    ⟨400, .obj [("error", .jstr "Invalid blockchain transaction parameters"), ("details", .jstr e.message)]⟩
  else
    ⟨500, .obj [("error", .jstr "Error updating shipment status with note"), ("details", .jstr e.message)]⟩

/-- The ledger's revert error for an unknown shipment, as surfaced to the
catch block.  Modelled from the spec: the write call "reverts with a
domain-distinguishable reason when trackingId is unknown". -/
def shipmentNotFoundError : JsError :=
  ⟨"execution reverted: Shipment not found", none⟩

/-- The client-side web3.js v4 argument-validation error for a value that is
not a valid unsigned integer: the message carries no revert reason, and the
code is the library's numeric validator code (never the ethers-style strings
the controller compares against at line 330). -/
def invalidUintError : JsError :=
  ⟨"Web3 validator found 1 error with value: must pass uint8 validation",
   some (.numCode 1100)⟩

/-- The mirror store's thrown error when the database is unavailable. -/
def mongoUnavailableError : JsError :=
  ⟨"MongoDB not available", none⟩

/-- The JSON rendering of a status value echoed in a response body (only
numbers are reachable on the success paths, the others serialize to null). -/
def statusJVal : StatusNumValue → JVal
  | .num q => .jnum q
  | _ => .jnull

/-- The success body of the validated update handler (lines 306-313). -/
def updateSuccessBody (env : Env) (trackingId : String) (v : StatusNumValue)
    (note : String) : ResponseBody :=
  .obj [("message", .jstr "Shipment status updated with note successfully"),
        ("transactionHash", .jstr env.txHash),
        ("blockNumber", .jnat env.blockNumber),
        ("trackingId", .jstr trackingId),
        ("status", statusJVal v),
        ("note", .jstr note)]

/-- The effective (validated) `updateShipmentStatusWithNote` handler,
shipmentController.js lines 263-342: field presence check, status
validation, sender-account resolution, the contract `send`, the unguarded
mirror update, and the success response.  Returns the response, the new
system state and the trace of web3 interactions. -/
def updateShipmentStatusWithNote (cfg : WalletCfg) (env : Env) (st : SystemState)
    (trackingId : String) (status : Option StatusInput) (note : String) :
    HttpResponse × SystemState × List LedgerCall :=
  match status with
  | none => (missingFieldsResp, st, [])
  | some si =>
    if trackingId = "" || note = "" then
      (missingFieldsResp, st, [])
    else
      let v := statusNum si
      if isUndef v || statusNumLt0 v || statusNumGt2 v then
        (invalidStatusResp, st, [])
      else
        match (match cfg.defaultAccount with
               | some a => some a
               | none => cfg.ownerAddress) with
        | none =>
            (⟨500, .obj [("error", .jstr "No sender account configured. Check OWNER_PRIVATE_KEY or OWNER_ADDRESS env variables.")]⟩,
             st, [])
        | some sender =>
          match encodeUintArg v with
          | none =>
              (catchUpdate invalidUintError, st,
               [.methodCall trackingId v note])
          | some sv =>
            match env.transport with
            | some e =>
                (catchUpdate e, st,
                 [.methodCall trackingId v note, .sendTx trackingId sv note])
            | none =>
              match st.ledger.lookup trackingId with
              | none =>
                  (catchUpdate shipmentNotFoundError, st,
                   [.methodCall trackingId v note, .sendTx trackingId sv note])
              | some _ =>
                let ledger' := st.ledger.append trackingId ⟨sv, note, env.blockTime, sender⟩
                let trace := [LedgerCall.methodCall trackingId v note,
                              LedgerCall.sendTx trackingId sv note]
                if env.mirrorFails then
                  (catchUpdate mongoUnavailableError, ⟨ledger', st.mirror⟩, trace)
                else
                  let mirror' :=
                    match findMirror st.mirror trackingId with
                    | none => st.mirror
                    | some _ => setMirrorStatus st.mirror trackingId (statusName v)
                  (⟨200, updateSuccessBody env trackingId v note⟩,
                   ⟨ledger', mirror'⟩, trace)

/-- The catch block of the earlier signed-transaction variant of the update
handler (lines 149-155): every error maps to the generic 500. -/
def catchUpdateV1 (e : JsError) : HttpResponse :=
  ⟨500, .obj [("error", .jstr "Error updating shipment status with note"), ("details", .jstr e.message)]⟩

/-- The success body of the signed-transaction variant (lines 140-147);
`receipt.blockNumber?.toString()` makes the block number a string here. -/
def updateSuccessBodyV1 (env : Env) (trackingId : String) (v : StatusNumValue)
    (note : String) : ResponseBody :=
  .obj [("message", .jstr "Shipment status updated with note successfully"),
        ("transactionHash", .jstr env.txHash),
        ("blockNumber", .jstr (toString env.blockNumber)),
        ("trackingId", .jstr trackingId),
        ("status", statusJVal v),
        ("note", .jstr note)]

/-- The earlier signed-transaction variant of `updateShipmentStatusWithNote`
(shipmentController.js lines 99-156): no status-value validation; explicit
nonce fetch, gas-price query, method construction, local signing with the
owner's private key, raw broadcast; the mirror update is guarded by its own
try/catch and degrades to logging. -/
def updateShipmentStatusWithNoteV1 (cfg : WalletCfg) (env : Env) (st : SystemState)
    (trackingId : String) (status : Option StatusInput) (note : String) :
    HttpResponse × SystemState × List LedgerCall :=
  match status with
  | none => (missingFieldsResp, st, [])
  | some si =>
    if trackingId = "" || note = "" then
      (missingFieldsResp, st, [])
    else
      match env.transport with
      | some e => (catchUpdateV1 e, st, [.getTxCount])
      | none =>
        let v := statusNum si
        let trace0 := [LedgerCall.getTxCount, LedgerCall.getGasPrice,
                       LedgerCall.methodCall trackingId v note]
        match encodeUintArg v with
        | none => (catchUpdateV1 invalidUintError, st, trace0)
        | some sv =>
          -- signTransaction(txParams, ownerPrivateKey); the recorded author
          -- is the address the ledger recovers from the signature.
          let author := env.privToAddr (match cfg.ownerPrivateKey with
                                        | some k => k
                                        | none => "0xundefined")
          let trace := trace0 ++ [LedgerCall.sendTx trackingId sv note]
          match st.ledger.lookup trackingId with
          | none => (catchUpdateV1 shipmentNotFoundError, st, trace)
          | some _ =>
            let ledger' := st.ledger.append trackingId ⟨sv, note, env.blockTime, author⟩
            -- lines 130-138: the mirror update is wrapped in try/catch and
            -- a failure is only logged.
            let mirror' :=
              if env.mirrorFails then st.mirror
              else
                match findMirror st.mirror trackingId with
                | none => st.mirror
                | some _ => setMirrorStatus st.mirror trackingId (statusName v)
            (⟨200, updateSuccessBodyV1 env trackingId v note⟩, ⟨ledger', mirror'⟩, trace)

/-- The catch block of `getShipmentNotes` (lines 372-386): a message
containing "Shipment not found" maps to 404, everything else to 500. -/
def catchGetNotes (e : JsError) : HttpResponse :=
  if jsIncludes e.message "Shipment not found" then
    ⟨404, .obj [("error", .jstr "Shipment not found on blockchain")]⟩
  else
    ⟨500, .obj [("error", .jstr "Error retrieving shipment notes"), ("details", .jstr e.message)]⟩

/-- Formatting of one ledger note for the response (lines 357-364). -/
def formatNote (env : Env) (nt : Note) : FormattedNote :=
  ⟨nt.status, statusNameOfNat nt.status, nt.note, nt.timestamp,
   env.formatIso (nt.timestamp * 1000), nt.updatedBy⟩

/-- The effective `getShipmentNotes` handler (shipmentController.js lines
345-387): reads the full note sequence from the ledger, formats it, and
returns it with a count; an unknown shipment surfaces as 404. -/
def getShipmentNotes (env : Env) (ledger : LedgerState) (trackingId : String) :
    HttpResponse × List LedgerCall :=
  if trackingId = "" then
    (⟨400, .obj [("error", .jstr "trackingId is required")]⟩, [])
  else
    match env.transport with
    | some e => (catchGetNotes e, [.getNotes trackingId])
    | none =>
      match ledger.lookup trackingId with
      | none => (catchGetNotes shipmentNotFoundError, [.getNotes trackingId])
      | some ns =>
        let formatted := ns.map (formatNote env)
        (⟨200, .obj [("trackingId", .jstr trackingId),
                     ("notesCount", .jnat formatted.length),
                     ("notes", .jnotes formatted)]⟩,
         [.getNotes trackingId])

/-- The mock shipment list of `getMockShipments` (lines 408-429). -/
def getMockShipments : List MirrorRec :=
  [⟨"demo-ship-001", 1, "0xdA5C19BEa562d0e95a533826bA8EF6011dBF7c31",
    "0xE41DBF17B97916F3BCf520683df8F7fEA6723D03", "DEMO-TRACK-001",
    some "Pending", "2024-01-05T08:00:00Z"⟩,
   ⟨"demo-ship-002", 2, "0xdA5C19BEa562d0e95a533826bA8EF6011dBF7c31",
    "0xd05A3DFCAa3279FF7b19F10F4b09e66B2F44B229", "DEMO-TRACK-002",
    some "InTransit", "2024-01-04T12:30:00Z"⟩]

/-- The effective `getAllShipments` handler (lines 389-403): serves the
mirror contents when available and non-empty, and otherwise — on a database
error or an empty mirror — silently serves the mock list. -/
def getAllShipments (dbFails : Bool) (mirror : List MirrorRec) : HttpResponse :=
  if dbFails then
    ⟨200, .arr getMockShipments⟩
  else if 0 < mirror.length then
    ⟨200, .arr mirror⟩
  else
    ⟨200, .arr getMockShipments⟩

/-- JS `parseInt` restricted to the shapes the controller receives: the
longest leading digit prefix, `NaN` (`none`) when there is none. -/
def parseIntJs (s : String) : Option Nat :=
  let ds := s.toList.takeWhile Char.isDigit
  if ds.isEmpty then none
  else some (ds.foldl (fun a c => a * 10 + (c.toNat - 48)) 0)

/-- The mock stage table of `getMedicineStage`'s catch block (lines 182-186),
with the `|| "Unknown"` default. -/
def mockStage (k : Nat) : String :=
  if k = 1 then "Distributed"
  else if k = 2 then "Manufactured"
  else if k = 3 then "Retail"
  else "Unknown"

/-- The `getMedicineStage` handler (medicineController.js lines 163-191):
validates and parses the id, then either returns the ledger's answer, or —
when the blockchain call fails for any reason — a mock stage marked with
`demo: true`. -/
def getMedicineStage (callResult : Except JsError String) (idParam : String) : HttpResponse :=
  if idParam = "" then
    ⟨400, .obj [("error", .jstr "Medicine ID is required")]⟩
  else
    match parseIntJs idParam with
    | none => ⟨400, .obj [("error", .jstr "Invalid Medicine ID")]⟩
    | some idNum =>
      match callResult with
      | .ok stage =>
          ⟨200, .obj [("medicineId", .jnat idNum), ("stage", .jstr stage)]⟩
      | .error _ =>
          ⟨200, .obj [("medicineId", .jnat idNum), ("stage", .jstr (mockStage idNum)),
                      ("demo", .jbool true)]⟩

namespace NonceSim

/-- One atomic step of a caller of the signed-transaction update handler, as
far as nonce handling is concerned (lines 113-127): `read i` is caller `i`'s
`web3js.eth.getTransactionCount(ownerAddress)` (line 113), `send i` is its
`sendSignedTransaction` of the transaction built with the nonce it read
(line 127).  An `await` separates the two, so steps of concurrent callers
may interleave. -/
inductive StepL where
  | read (i : Nat)
  | send (i : Nat)
  deriving DecidableEq, Repr

/-- The ledger-plus-callers state of the simulation: the identity's current
transaction count, each caller's fetched nonce (if any), the submitted
`(caller, nonce)` pairs in submission order, and the confirmed ones (the
ledger confirms a submission exactly when its nonce equals the current
transaction count, and then advances the count). -/
structure SimState where
  txCount : Nat
  pending : Nat → Option Nat
  submitted : List (Nat × Nat)
  confirmed : List (Nat × Nat)

/-- One interleaving step. -/
def step (s : SimState) : StepL → SimState
  | .read i =>
      { s with pending := fun j => if j = i then some s.txCount else s.pending j }
  | .send i =>
      match s.pending i with
      | none => s
      | some n =>
        if n = s.txCount then
          { s with txCount := s.txCount + 1,
                   submitted := s.submitted ++ [(i, n)],
                   confirmed := s.confirmed ++ [(i, n)] }
        else
          { s with submitted := s.submitted ++ [(i, n)] }

/-- Run a schedule (an interleaving of caller steps). -/
def run (sched : List StepL) (s : SimState) : SimState :=
  sched.foldl step s

/-- The initial state: transaction count `c`, no caller has read yet. -/
def init (c : Nat) : SimState :=
  ⟨c, fun _ => none, [], []⟩

/-- The fully serialized schedule of `k` callers: each caller completes its
read-then-send before the next starts. -/
def seqSchedule : Nat → List StepL
  | 0 => []
  | k + 1 => seqSchedule k ++ [.read k, .send k]

/-- The interleaving in which both callers read the transaction count before
either sends. -/
def racySchedule : List StepL :=
  [.read 0, .read 1, .send 0, .send 1]

theorem run_append (a b : List StepL) (s : SimState) :
    run (a ++ b) s = run b (run a s) :=
  List.foldl_append step s a b

/-- The state after running the serialized schedule of `k` callers. -/
theorem run_seqSchedule (c k : Nat) :
    run (seqSchedule k) (init c) =
      { txCount := c + k,
        pending := fun j => if j < k then some (c + j) else none,
        submitted := (List.range k).map (fun i => (i, c + i)),
        confirmed := (List.range k).map (fun i => (i, c + i)) } := by
  induction k with
  | zero =>
      have hpend : (fun j : Nat => if j < 0 then some (c + j) else none) =
          (fun _ : Nat => (none : Option Nat)) := by
        funext j; simp
      simp [seqSchedule, run, init, hpend]
  | succ k ih =>
      rw [seqSchedule, run_append, ih]
      have hpend : (fun j => if j = k then
          some (c + k) else if j < k then some (c + j) else none) =
          (fun j => if j < k + 1 then some (c + j) else none) := by
        funext j
        by_cases h1 : j = k
        · subst h1; simp
        · by_cases h2 : j < k
          · simp [h1, h2, Nat.lt_succ_of_lt h2]
          · have h3 : ¬ j < k + 1 := by omega
            simp [h1, h2, h3]
      simp [run, step, hpend, List.range_succ, Nat.add_assoc]

end NonceSim

/-- A concrete environment for evaluating the handlers on sample inputs:
the ledger is reachable, confirmation yields a fixed receipt, the mirror
store works. -/
def testEnv : Env :=
  { transport := none, blockTime := 1700000000, txHash := "0xdeadbeef",
    blockNumber := 42, mirrorFails := false,
    formatIso := fun _ => "", privToAddr := fun _ => "0xSigner" }

/-- A concrete ledger: `DEMO-TRACK-001` exists with no notes yet,
`DEMO-TRACK-002` exists with one note. -/
def testLedger : LedgerState :=
  ⟨[("DEMO-TRACK-001", []),
    ("DEMO-TRACK-002", [⟨1, "left warehouse", 1699990000, "0xSigner"⟩])], 7⟩

/-- A concrete system state: the test ledger plus the demo mirror records. -/
def testState : SystemState := ⟨testLedger, getMockShipments⟩

/-- A concrete wallet configuration with a configured signing account. -/
def testCfg : WalletCfg :=
  ⟨some "0xdA5C19BEa562d0e95a533826bA8EF6011dBF7c31",
   some "0xdA5C19BEa562d0e95a533826bA8EF6011dBF7c31",
   some "0xabc123"⟩

/-- Behaviour of the validated update handler once the field-presence check,
the status validation and the sender-account resolution have passed: what
remains is the contract method call, the broadcast, and the mirror update. -/
theorem update_after_checks (cfg : WalletCfg) (env : Env) (st : SystemState)
    (tid : String) (si : StatusInput) (note : String) (a : String) (q : ℚ)
    (hsn : statusNum si = .num q) (h0 : 0 ≤ q) (h2 : q ≤ 2)
    (htid : tid ≠ "") (hnote : note ≠ "") (hacc : cfg.defaultAccount = some a) :
    updateShipmentStatusWithNote cfg env st tid (some si) note =
      match encodeUintArg (.num q) with
      | none =>
          (catchUpdate invalidUintError, st, [.methodCall tid (.num q) note])
      | some sv =>
        match env.transport with
        | some e =>
            (catchUpdate e, st, [.methodCall tid (.num q) note, .sendTx tid sv note])
        | none =>
          match st.ledger.lookup tid with
          | none =>
              (catchUpdate shipmentNotFoundError, st,
               [.methodCall tid (.num q) note, .sendTx tid sv note])
          | some _ =>
            let ledger' := st.ledger.append tid ⟨sv, note, env.blockTime, a⟩
            let trace := [LedgerCall.methodCall tid (.num q) note,
                          LedgerCall.sendTx tid sv note]
            if env.mirrorFails then
              (catchUpdate mongoUnavailableError, ⟨ledger', st.mirror⟩, trace)
            else
              let mirror' :=
                match findMirror st.mirror tid with
                | none => st.mirror
                | some _ => setMirrorStatus st.mirror tid (statusName (.num q))
              (⟨200, updateSuccessBody env tid (.num q) note⟩, ⟨ledger', mirror'⟩, trace) := by
  have hq0 : ¬ q < 0 := not_lt.mpr h0
  have hq2 : ¬ 2 < q := not_lt.mpr h2
  simp only [updateShipmentStatusWithNote, hsn, hacc]
  simp [htid, hnote, hq0, hq2, isUndef, statusNumLt0, statusNumGt2]

/-- Behaviour of the validated update handler when the status names an
inherited `Object.prototype` member: the NaN comparisons let it pass the
validation, and the web3 argument validator then rejects it client-side,
which the catch block classifies as the generic 500 (web3.js v4's numeric
error code never equals the ethers-style strings compared at line 330). -/
theorem update_protoMember_path (cfg : WalletCfg) (env : Env) (st : SystemState)
    (tid : String) (si : StatusInput) (note : String) (a : String) (name : String)
    (hsn : statusNum si = .protoMember name)
    (htid : tid ≠ "") (hnote : note ≠ "") (hacc : cfg.defaultAccount = some a) :
    updateShipmentStatusWithNote cfg env st tid (some si) note =
      (⟨500, .obj [("error", .jstr "Error updating shipment status with note"),
                   ("details", .jstr invalidUintError.message)]⟩,
       st, [.methodCall tid (.protoMember name) note]) := by
  have hclass : catchUpdate invalidUintError =
      ⟨500, .obj [("error", .jstr "Error updating shipment status with note"),
                  ("details", .jstr invalidUintError.message)]⟩ := by
    decide
  simp only [updateShipmentStatusWithNote, hsn, hacc]
  simp [htid, hnote, isUndef, statusNumLt0, statusNumGt2, encodeUintArg, hclass]

/-- The bracket lookup yields `undefined` exactly off the three enum names
and the inherited `Object.prototype` member names. -/
theorem ShipmentStatus_undef_iff (s : String) :
    ShipmentStatus s = .jsUndefined ↔
      s ∉ (["Pending", "InTransit", "Delivered"] : List String)
      ∧ s ∉ objectPrototypeKeys := by
  by_cases h1 : s = "Pending"
  · subst h1; decide
  by_cases h2 : s = "InTransit"
  · subst h2; decide
  by_cases h3 : s = "Delivered"
  · subst h3; decide
  by_cases h4 : s ∈ objectPrototypeKeys
  · simp [ShipmentStatus, h1, h2, h3, h4]
  · simp [ShipmentStatus, h1, h2, h3, h4]

/-- Counterexample for C10: the string `"constructor"` is not one of the
enumerated names, yet the bracket lookup `ShipmentStatus[status]` returns
the inherited `Object.prototype` member — not `undefined` — and the NaN
comparisons of the range checks are false, so the request passes validation
and is not rejected with the validation error: it fails only later, in the
web3 argument validator, surfacing as the generic 500. -/
theorem status_proto_string_passes_validation :
    statusValid (.str "constructor") = true
    ∧ "constructor" ∉ (["Pending", "InTransit", "Delivered"] : List String)
    ∧ statusNum (.str "constructor") ≠ .jsUndefined
    ∧ (updateShipmentStatusWithNote testCfg testEnv testState "DEMO-TRACK-001"
        (some (.str "constructor")) "fragile").1 ≠ invalidStatusResp
    ∧ (updateShipmentStatusWithNote testCfg testEnv testState "DEMO-TRACK-001"
        (some (.str "constructor")) "fragile").1.status = 500 := by
  refine ⟨by decide, by decide, by decide, by decide, by decide⟩

/-- C10 (amended): in the validated `updateShipmentStatusWithNote` (lines
275-280), a numeric status passes validation exactly when `0 ≤ status ≤ 2` —
so non-integer numbers such as `3/2` pass — and a passing numeric status is
forwarded to the contract method call unmodified; a string status passes
exactly when it is one of the three enum names or an inherited
`Object.prototype` member name (whose lookup is not `undefined` and whose
NaN comparisons pass the range checks); only a string whose lookup yields
`undefined` draws the invalid-status response. -/
theorem status_validation_characterization :
    (∀ q : ℚ, statusValid (.num q) = true ↔ 0 ≤ q ∧ q ≤ 2)
    ∧ (∀ s : String,
        statusNum (.str s) = .jsUndefined ↔
          s ∉ (["Pending", "InTransit", "Delivered"] : List String)
          ∧ s ∉ objectPrototypeKeys)
    ∧ (∀ s : String,
        statusValid (.str s) = true ↔
          (s ∈ (["Pending", "InTransit", "Delivered"] : List String)
           ∨ s ∈ objectPrototypeKeys))
    ∧ (∀ cfg env st tid s note,
        tid ≠ "" → note ≠ "" → statusNum (.str s) = .jsUndefined →
        (updateShipmentStatusWithNote cfg env st tid (some (.str s)) note).1 =
          invalidStatusResp)
    ∧ (∀ cfg env st tid q note a,
        cfg.defaultAccount = some a → tid ≠ "" → note ≠ "" → 0 ≤ q → q ≤ 2 →
        (updateShipmentStatusWithNote cfg env st tid (some (.num q)) note).2.2.head? =
          some (.methodCall tid (.num q) note)) := by
  refine ⟨?_, ?_, ?_, ?_, ?_⟩
  · intro q
    simp [statusValid, statusNum, isUndef, statusNumLt0, statusNumGt2,
      not_lt, and_comm]
  · intro s
    exact ShipmentStatus_undef_iff s
  · intro s
    by_cases h1 : s = "Pending"
    · subst h1; decide
    by_cases h2 : s = "InTransit"
    · subst h2; decide
    by_cases h3 : s = "Delivered"
    · subst h3; decide
    by_cases h4 : s ∈ objectPrototypeKeys
    · have hs : ShipmentStatus s = .protoMember s := by
        simp [ShipmentStatus, h1, h2, h3, h4]
      simp [statusValid, statusNum, hs, isUndef, statusNumLt0, statusNumGt2, h4]
    · have hs : ShipmentStatus s = .jsUndefined := by
        simp [ShipmentStatus, h1, h2, h3, h4]
      simp [statusValid, statusNum, hs, isUndef, h1, h2, h3, h4]
  · intro cfg env st tid s note htid hnote hsn
    simp [updateShipmentStatusWithNote, hsn, htid, hnote, isUndef]
  · intro cfg env st tid q note a hacc htid hnote h0 h2
    rw [update_after_checks cfg env st tid (.num q) note a q rfl h0 h2 htid hnote hacc]
    rcases hE : encodeUintArg (.num q) with _ | sv
    · simp
    · rcases hT : env.transport with _ | e
      · rcases hL : st.ledger.lookup tid with _ | ns
        · simp
        · by_cases hm : env.mirrorFails <;> simp [hm]
      · simp

/-- Witness for C10 (amended) at concrete inputs: the non-integer `3/2`
passes validation and reaches the contract method call unmodified, the
prototype member name `"constructor"` passes validation, and the string
`"Shipped"` maps to `undefined` and draws the invalid-status response. -/
theorem status_validation_characterization_witness :
    statusValid (.num (mkRat 3 2)) = true
    ∧ (updateShipmentStatusWithNote testCfg testEnv testState "DEMO-TRACK-001"
        (some (.num (mkRat 3 2))) "fragile").2.2.head? =
        some (.methodCall "DEMO-TRACK-001" (.num (mkRat 3 2)) "fragile")
    ∧ statusValid (.str "toString") = true
    ∧ (updateShipmentStatusWithNote testCfg testEnv testState "DEMO-TRACK-001"
        (some (.str "Shipped")) "fragile").1 = invalidStatusResp := by
  refine ⟨?_, ?_, ?_, ?_⟩
  · exact (status_validation_characterization.1 (mkRat 3 2)).mpr ⟨by decide, by decide⟩
  · exact status_validation_characterization.2.2.2.2 testCfg testEnv testState
      "DEMO-TRACK-001" (mkRat 3 2) "fragile" _ rfl (by decide) (by decide)
      (by decide) (by decide)
  · exact (status_validation_characterization.2.2.1 "toString").mpr
      (Or.inr (by decide))
  · exact status_validation_characterization.2.2.2.1 testCfg testEnv testState
      "DEMO-TRACK-001" "Shipped" "fragile" (by decide) (by decide) (by decide)

/-- C4: with the ledger reachable, `getShipmentNotes` answers a known
shipment with a 200 response carrying the full formatted note sequence — in
particular a shipment with zero notes gets a 200 response with count 0 and
an empty sequence, not an error — and it answers 404 ("Shipment not found on
blockchain") exactly when the shipment is unknown to the ledger. -/
theorem getShipmentNotes_empty_ok_notfound_iff_unknown
    (env : Env) (ledger : LedgerState) (tid : String)
    (htid : tid ≠ "") (hT : env.transport = none) :
    (∀ ns, ledger.lookup tid = some ns →
        (getShipmentNotes env ledger tid).1 =
          ⟨200, .obj [("trackingId", .jstr tid),
                      ("notesCount", .jnat ns.length),
                      ("notes", .jnotes (ns.map (formatNote env)))]⟩)
    ∧ (ledger.lookup tid = some [] →
        (getShipmentNotes env ledger tid).1 =
          ⟨200, .obj [("trackingId", .jstr tid),
                      ("notesCount", .jnat 0),
                      ("notes", .jnotes [])]⟩)
    ∧ ((getShipmentNotes env ledger tid).1.status = 404 ↔ ledger.lookup tid = none)
    ∧ (ledger.lookup tid = none →
        (getShipmentNotes env ledger tid).1 =
          ⟨404, .obj [("error", .jstr "Shipment not found on blockchain")]⟩) := by
  have hclass : catchGetNotes shipmentNotFoundError =
      ⟨404, .obj [("error", .jstr "Shipment not found on blockchain")]⟩ := by
    decide
  have hknown : ∀ ns, ledger.lookup tid = some ns →
      (getShipmentNotes env ledger tid).1 =
        ⟨200, .obj [("trackingId", .jstr tid),
                    ("notesCount", .jnat ns.length),
                    ("notes", .jnotes (ns.map (formatNote env)))]⟩ := by
    intro ns hL
    simp [getShipmentNotes, htid, hT, hL]
  have hunknown : ledger.lookup tid = none →
      (getShipmentNotes env ledger tid).1 =
        ⟨404, .obj [("error", .jstr "Shipment not found on blockchain")]⟩ := by
    intro hL
    simp [getShipmentNotes, htid, hT, hL, hclass]
  refine ⟨hknown, fun h => hknown [] h, ?_, hunknown⟩
  constructor
  · intro h404
    rcases hL : ledger.lookup tid with _ | ns
    · rfl
    · rw [hknown ns hL] at h404
      simp at h404
  · intro hL
    rw [hunknown hL]

/-- Witness for C4: on the concrete test ledger, `DEMO-TRACK-001` has zero
notes and gets `200` with count `0`, while the unknown id `"NOPE"` gets the
404 not-found response. -/
theorem getShipmentNotes_empty_ok_notfound_iff_unknown_witness :
    (getShipmentNotes testEnv testLedger "DEMO-TRACK-001").1 =
      ⟨200, .obj [("trackingId", .jstr "DEMO-TRACK-001"),
                  ("notesCount", .jnat 0),
                  ("notes", .jnotes [])]⟩
    ∧ (getShipmentNotes testEnv testLedger "NOPE").1 =
      ⟨404, .obj [("error", .jstr "Shipment not found on blockchain")]⟩ := by
  constructor
  · exact (getShipmentNotes_empty_ok_notfound_iff_unknown testEnv testLedger
      "DEMO-TRACK-001" (by decide) rfl).2.1 (by decide)
  · exact (getShipmentNotes_empty_ok_notfound_iff_unknown testEnv testLedger
      "NOPE" (by decide) rfl).2.2.2 (by decide)

/-- The test environment with the RPC node unreachable: the transport layer
fails with a connection error (no revert reason, no error code). -/
def testEnvDown : Env :=
  { testEnv with transport := some ⟨"connection refused", none⟩ }

/-- C2: a validated `updateShipmentStatusWithNote` against a trackingId the
ledger does not know yields the domain not-found rejection — status 400 with
reason "Shipment not found on blockchain" — leaves the entire system state
(ledger and mirror) unchanged, so no note is appended; a transport failure
instead yields the generic 500 response, so the permanent rejection is
distinguishable from a retryable transport failure. -/
theorem appendNote_unknown_trackingId_not_found
    (cfg : WalletCfg) (st : SystemState) (tid : String) (si : StatusInput)
    (note : String) (a : String) (q : ℚ) (sv : Nat)
    (hsn : statusNum si = .num q) (h0 : 0 ≤ q) (h2 : q ≤ 2)
    (htid : tid ≠ "") (hnote : note ≠ "") (hacc : cfg.defaultAccount = some a)
    (henc : encodeUintArg (.num q) = some sv)
    (hunknown : st.ledger.lookup tid = none) :
    (∀ env : Env, env.transport = none →
        updateShipmentStatusWithNote cfg env st tid (some si) note =
          (⟨400, .obj [("error", .jstr "Shipment not found on blockchain"),
                       ("details", .jstr "execution reverted: Shipment not found")]⟩,
           st, [.methodCall tid (.num q) note, .sendTx tid sv note]))
    ∧ (∀ (env : Env) (e : JsError), env.transport = some e →
        jsIncludes e.message "revert" = false → e.code = none →
        updateShipmentStatusWithNote cfg env st tid (some si) note =
          (⟨500, .obj [("error", .jstr "Error updating shipment status with note"),
                       ("details", .jstr e.message)]⟩,
           st, [.methodCall tid (.num q) note, .sendTx tid sv note])) := by
  have hclass : catchUpdate shipmentNotFoundError =
      ⟨400, .obj [("error", .jstr "Shipment not found on blockchain"),
                  ("details", .jstr "execution reverted: Shipment not found")]⟩ := by
    decide
  constructor
  · intro env hT
    rw [update_after_checks cfg env st tid si note a q hsn h0 h2 htid hnote hacc]
    simp [henc, hT, hunknown, hclass]
  · intro env e hT hrev hcode
    rw [update_after_checks cfg env st tid si note a q hsn h0 h2 htid hnote hacc]
    simp [henc, hT, catchUpdate, hrev, hcode]

/-- Witness for C2: the unknown id `"NOPE"` draws the 400 not-found
rejection with the state unchanged, and under a connection failure the same
request draws the generic 500 instead. -/
theorem appendNote_unknown_trackingId_not_found_witness :
    updateShipmentStatusWithNote testCfg testEnv testState "NOPE"
        (some (.str "InTransit")) "left warehouse" =
      (⟨400, .obj [("error", .jstr "Shipment not found on blockchain"),
                   ("details", .jstr "execution reverted: Shipment not found")]⟩,
       testState, [.methodCall "NOPE" (.num 1) "left warehouse",
                   .sendTx "NOPE" 1 "left warehouse"])
    ∧ updateShipmentStatusWithNote testCfg testEnvDown testState "NOPE"
        (some (.str "InTransit")) "left warehouse" =
      (⟨500, .obj [("error", .jstr "Error updating shipment status with note"),
                   ("details", .jstr "connection refused")]⟩,
       testState, [.methodCall "NOPE" (.num 1) "left warehouse",
                   .sendTx "NOPE" 1 "left warehouse"]) := by
  constructor
  · exact (appendNote_unknown_trackingId_not_found testCfg testState "NOPE"
      (.str "InTransit") "left warehouse" _ 1 1 rfl (by decide) (by decide)
      (by decide) (by decide) rfl (by decide) (by decide)).1 testEnv rfl
  · exact (appendNote_unknown_trackingId_not_found testCfg testState "NOPE"
      (.str "InTransit") "left warehouse" _ 1 1 rfl (by decide) (by decide)
      (by decide) (by decide) rfl (by decide) (by decide)).2 testEnvDown
      ⟨"connection refused", none⟩ rfl (by decide) rfl

/-- Counterexample for C3: the numeric status `3/2` is not one of the
enumerated values, yet it passes the controller's validation (so the claim's
unconditional validation rejection fails): the request is rejected only
later, by the web3 argument validator, and since the thrown error carries
web3.js v4's numeric code — never the ethers-style strings the controller
compares against — it surfaces as the generic 500, a response distinct from
both of the controller's validation responses. -/
theorem appendNote_noninteger_status_not_validation_rejected :
    statusName (.num (mkRat 3 2)) = none
    ∧ statusValid (.num (mkRat 3 2)) = true
    ∧ (updateShipmentStatusWithNote testCfg testEnv testState "DEMO-TRACK-001"
        (some (.num (mkRat 3 2))) "fragile").1 =
      ⟨500, .obj [("error", .jstr "Error updating shipment status with note"),
                  ("details", .jstr invalidUintError.message)]⟩
    ∧ (updateShipmentStatusWithNote testCfg testEnv testState "DEMO-TRACK-001"
        (some (.num (mkRat 3 2))) "fragile").1 ≠ invalidStatusResp
    ∧ (updateShipmentStatusWithNote testCfg testEnv testState "DEMO-TRACK-001"
        (some (.num (mkRat 3 2))) "fragile").1 ≠ missingFieldsResp := by
  refine ⟨by decide, by decide, by decide, by decide, by decide⟩

/-- C3 (amended): a missing status, an empty note, a string status whose
bracket lookup yields `undefined`, or a status mapping to a number outside
`[0, 2]` is rejected with the corresponding 400 validation response before
any web3 interaction — the interaction trace is empty and the system state
unchanged.  A non-integer number inside `[0, 2]`, or a string naming an
inherited `Object.prototype` member, instead passes this validation and is
rejected by the web3 argument validator with the generic 500 (web3.js v4's
numeric error code never equals the ethers-style strings compared at line
330) — never with the validation error — still with no RPC made and the
state unchanged. -/
theorem appendNote_validation_rejects_before_ledger
    (cfg : WalletCfg) (env : Env) (st : SystemState) (tid : String)
    (si : StatusInput) (note : String) :
    (updateShipmentStatusWithNote cfg env st tid none note =
      (missingFieldsResp, st, []))
    ∧ (note = "" →
        updateShipmentStatusWithNote cfg env st tid (some si) note =
          (missingFieldsResp, st, []))
    ∧ (tid ≠ "" → note ≠ "" → statusNum si = .jsUndefined →
        updateShipmentStatusWithNote cfg env st tid (some si) note =
          (invalidStatusResp, st, []))
    ∧ (∀ q : ℚ, tid ≠ "" → note ≠ "" → statusNum si = .num q → (q < 0 ∨ 2 < q) →
        updateShipmentStatusWithNote cfg env st tid (some si) note =
          (invalidStatusResp, st, []))
    ∧ (∀ (name a : String), tid ≠ "" → note ≠ "" →
        statusNum si = .protoMember name → cfg.defaultAccount = some a →
        updateShipmentStatusWithNote cfg env st tid (some si) note =
          (⟨500, .obj [("error", .jstr "Error updating shipment status with note"),
                       ("details", .jstr invalidUintError.message)]⟩,
           st, [.methodCall tid (.protoMember name) note]))
    ∧ (∀ (q : ℚ) (a : String), tid ≠ "" → note ≠ "" →
        statusNum si = .num q → 0 ≤ q → q ≤ 2 →
        encodeUintArg (.num q) = none → cfg.defaultAccount = some a →
        updateShipmentStatusWithNote cfg env st tid (some si) note =
          (⟨500, .obj [("error", .jstr "Error updating shipment status with note"),
                       ("details", .jstr invalidUintError.message)]⟩,
           st, [.methodCall tid (.num q) note])) := by
  refine ⟨rfl, ?_, ?_, ?_, ?_, ?_⟩
  · intro hnote
    simp [updateShipmentStatusWithNote, hnote]
  · intro htid hnote hsn
    simp [updateShipmentStatusWithNote, htid, hnote, hsn, isUndef]
  · intro q htid hnote hsn hq
    rcases hq with hq | hq <;>
      simp [updateShipmentStatusWithNote, htid, hnote, hsn, hq,
        isUndef, statusNumLt0, statusNumGt2]
  · intro name a htid hnote hsn hacc
    exact update_protoMember_path cfg env st tid si note a name hsn htid hnote hacc
  · intro q a htid hnote hsn h0 h2 henc hacc
    have hclass : catchUpdate invalidUintError =
        ⟨500, .obj [("error", .jstr "Error updating shipment status with note"),
                    ("details", .jstr invalidUintError.message)]⟩ := by
      decide
    rw [update_after_checks cfg env st tid si note a q hsn h0 h2 htid hnote hacc]
    simp [henc, hclass]

/-- Witness for C3 (amended) at concrete inputs: the lookup-miss string
`"Shipped"`, the out-of-range number `5`, and an empty note are each
rejected with the validation responses and an empty interaction trace,
while the prototype member name `"valueOf"` and the non-integer `3/2` pass
validation and draw the generic 500 from the argument validator. -/
theorem appendNote_validation_rejects_before_ledger_witness :
    updateShipmentStatusWithNote testCfg testEnv testState "DEMO-TRACK-001"
        (some (.str "Shipped")) "fragile" = (invalidStatusResp, testState, [])
    ∧ updateShipmentStatusWithNote testCfg testEnv testState "DEMO-TRACK-001"
        (some (.num (mkRat 5 1))) "fragile" = (invalidStatusResp, testState, [])
    ∧ updateShipmentStatusWithNote testCfg testEnv testState "DEMO-TRACK-001"
        (some (.str "InTransit")) "" = (missingFieldsResp, testState, [])
    ∧ updateShipmentStatusWithNote testCfg testEnv testState "DEMO-TRACK-001"
        (some (.str "valueOf")) "fragile" =
      (⟨500, .obj [("error", .jstr "Error updating shipment status with note"),
                   ("details", .jstr invalidUintError.message)]⟩,
       testState, [.methodCall "DEMO-TRACK-001" (.protoMember "valueOf") "fragile"])
    ∧ updateShipmentStatusWithNote testCfg testEnv testState "DEMO-TRACK-001"
        (some (.num (mkRat 3 2))) "fragile" =
      (⟨500, .obj [("error", .jstr "Error updating shipment status with note"),
                   ("details", .jstr invalidUintError.message)]⟩,
       testState, [.methodCall "DEMO-TRACK-001" (.num (mkRat 3 2)) "fragile"]) := by
  refine ⟨?_, ?_, ?_, ?_, ?_⟩
  · exact (appendNote_validation_rejects_before_ledger testCfg testEnv testState
      "DEMO-TRACK-001" (.str "Shipped") "fragile").2.2.1 (by decide) (by decide)
      (by decide)
  · exact (appendNote_validation_rejects_before_ledger testCfg testEnv testState
      "DEMO-TRACK-001" (.num (mkRat 5 1)) "fragile").2.2.2.1 (mkRat 5 1)
      (by decide) (by decide) rfl (Or.inr (by decide))
  · exact (appendNote_validation_rejects_before_ledger testCfg testEnv testState
      "DEMO-TRACK-001" (.str "InTransit") "").2.1 rfl
  · exact (appendNote_validation_rejects_before_ledger testCfg testEnv testState
      "DEMO-TRACK-001" (.str "valueOf") "fragile").2.2.2.2.1 "valueOf" _
      (by decide) (by decide) (by decide) rfl
  · exact (appendNote_validation_rejects_before_ledger testCfg testEnv testState
      "DEMO-TRACK-001" (.num (mkRat 3 2)) "fragile").2.2.2.2.2 (mkRat 3 2) _
      (by decide) (by decide) rfl (by decide) (by decide) (by decide) rfl

/-- The test environment with the ledger reachable but the mirror store
throwing (database unavailable). -/
def testEnvMirrorDown : Env :=
  { testEnv with mirrorFails := true }

/-- Counterexample for C7: a concrete confirmed append succeeds with 200,
yet its response body has no author field (`author`/`updatedBy`) and no
ledger-timestamp field — the claim's required field set is not present. -/
theorem appendNote_response_lacks_author_timestamp :
    (updateShipmentStatusWithNote testCfg testEnv testState "DEMO-TRACK-001"
        (some (.str "InTransit")) "picked up").1.status = 200
    ∧ (updateShipmentStatusWithNote testCfg testEnv testState "DEMO-TRACK-001"
        (some (.str "InTransit")) "picked up").1.body.hasKey "author" = false
    ∧ (updateShipmentStatusWithNote testCfg testEnv testState "DEMO-TRACK-001"
        (some (.str "InTransit")) "picked up").1.body.hasKey "updatedBy" = false
    ∧ (updateShipmentStatusWithNote testCfg testEnv testState "DEMO-TRACK-001"
        (some (.str "InTransit")) "picked up").1.body.hasKey "timestamp" = false := by
  refine ⟨by decide, by decide, by decide, by decide⟩

/-- C7 (amended): every successful validated append answers 200 with exactly
the fields `message`, `transactionHash` (the transaction identity),
`blockNumber` (the block reference), `trackingId`, `status` and `note` — the
author identity and the ledger-assigned timestamp are not part of the
response. -/
theorem appendNote_success_response_fields
    (cfg : WalletCfg) (env : Env) (st : SystemState) (tid : String)
    (si : StatusInput) (note : String) (a : String) (q : ℚ) (sv : Nat) (ns : List Note)
    (hsn : statusNum si = .num q) (h0 : 0 ≤ q) (h2 : q ≤ 2)
    (htid : tid ≠ "") (hnote : note ≠ "") (hacc : cfg.defaultAccount = some a)
    (henc : encodeUintArg (.num q) = some sv) (hT : env.transport = none)
    (hL : st.ledger.lookup tid = some ns) (hm : env.mirrorFails = false) :
    (updateShipmentStatusWithNote cfg env st tid (some si) note).1 =
      ⟨200, updateSuccessBody env tid (.num q) note⟩
    ∧ (updateSuccessBody env tid (.num q) note).keys =
        ["message", "transactionHash", "blockNumber", "trackingId", "status", "note"]
    ∧ (updateSuccessBody env tid (.num q) note).hasKey "author" = false
    ∧ (updateSuccessBody env tid (.num q) note).hasKey "updatedBy" = false
    ∧ (updateSuccessBody env tid (.num q) note).hasKey "timestamp" = false := by
  refine ⟨?_, rfl, rfl, rfl, rfl⟩
  rw [update_after_checks cfg env st tid si note a q hsn h0 h2 htid hnote hacc]
  simp [henc, hT, hL, hm]

/-- Witness for C7 (amended): the concrete successful append on the test
state produces exactly those six response fields. -/
theorem appendNote_success_response_fields_witness :
    (updateShipmentStatusWithNote testCfg testEnv testState "DEMO-TRACK-002"
        (some (.str "Delivered")) "handed to recipient").1 =
      ⟨200, updateSuccessBody testEnv "DEMO-TRACK-002" (.num 2) "handed to recipient"⟩
    ∧ (updateSuccessBody testEnv "DEMO-TRACK-002" (.num 2) "handed to recipient").keys =
        ["message", "transactionHash", "blockNumber", "trackingId", "status", "note"] := by
  have h := appendNote_success_response_fields testCfg testEnv testState
    "DEMO-TRACK-002" (.str "Delivered") "handed to recipient" _ 2 2
    [⟨1, "left warehouse", 1699990000, "0xSigner"⟩]
    rfl (by decide) (by decide) (by decide) (by decide) rfl (by decide) rfl
    (by decide) rfl
  exact ⟨h.1, h.2.1⟩

/-- C5 evaluated at the failing input (the code contradicts the claim): a
confirmed ledger write followed by a mirror-store failure makes the whole
operation fail with the generic 500 — the receipt is discarded — even though
the note was appended to the ledger. -/
theorem appendNote_mirror_failure_fails_operation :
    (updateShipmentStatusWithNote testCfg testEnvMirrorDown testState
        "DEMO-TRACK-001" (some (.str "InTransit")) "picked up").1 =
      ⟨500, .obj [("error", .jstr "Error updating shipment status with note"),
                  ("details", .jstr "MongoDB not available")]⟩
    ∧ (updateShipmentStatusWithNote testCfg testEnvMirrorDown testState
        "DEMO-TRACK-001" (some (.str "InTransit")) "picked up").2.1.ledger.lookup
        "DEMO-TRACK-001" =
      some [⟨1, "picked up", 1700000000,
            "0xdA5C19BEa562d0e95a533826bA8EF6011dBF7c31"⟩] := by
  refine ⟨by decide, by decide⟩

/-- Updating the cached status of a tracking id rewrites exactly that
record's status as seen by a subsequent lookup. -/
theorem findMirror_setMirrorStatus (m : List MirrorRec) (tid : String) (s : Option String) :
    findMirror (setMirrorStatus m tid s) tid =
      (findMirror m tid).map (fun r => { r with status := s }) := by
  induction m with
  | nil => rfl
  | cons r rs ih =>
    simp only [setMirrorStatus, List.map_cons, findMirror] at *
    rcases hb : (r.trackingId == tid) with _ | _
    · rw [if_neg (by simp)]
      simp only [List.find?_cons, hb]
      exact ih
    · rw [if_pos rfl]
      simp [List.find?_cons, hb]

/-- Appending a note on the ledger extends exactly the target shipment's
note sequence. -/
theorem LedgerState.lookup_append (σ : LedgerState) (tid : String) (n : Note) :
    (σ.append tid n).lookup tid = (σ.lookup tid).map (fun ns => ns ++ [n]) := by
  obtain ⟨l, tc⟩ := σ
  simp only [LedgerState.append, LedgerState.lookup]
  induction l with
  | nil => rfl
  | cons x xs ih =>
    simp only [List.map_cons]
    rcases hb : (x.1 == tid) with _ | _
    · rw [if_neg (by simp)]
      simp only [List.find?_cons, hb]
      exact ih
    · rw [if_pos rfl]
      simp [List.find?_cons, hb]

/-- A successfully encoded unsigned-integer argument equals the original
rational. -/
theorem encodeUintArg_cast (q : ℚ) (sv : Nat) (h : encodeUintArg (.num q) = some sv) :
    (sv : ℚ) = q := by
  have hden : q.den = 1 := by
    by_contra hd
    simp [encodeUintArg, hd] at h
  have hnum : 0 ≤ q.num := by
    by_contra hn
    simp [encodeUintArg, hn] at h
  have hsv : q.num.toNat = sv := by
    simpa [encodeUintArg, hden, hnum] using h
  subst hsv
  have h2 : (q.num : ℚ) = q := by
    conv_rhs => rw [← Rat.num_div_den q]
    rw [hden]
    simp
  have h3 : ((q.num.toNat : ℚ)) = (q.num : ℚ) := by
    exact_mod_cast congrArg (fun z : ℤ => (z : ℚ)) (Int.toNat_of_nonneg hnum)
  rw [h3, h2]

/-- C6: after a confirmed validated append on an existing shipment whose
mirror record exists and whose mirror update completes, the mirror record's
cached status equals the enum name of the status of the most recently
appended note — the cache is a projection of the note log. -/
theorem mirror_status_matches_last_note_after_confirmed_append
    (cfg : WalletCfg) (env : Env) (st : SystemState) (tid : String)
    (si : StatusInput) (note : String) (a : String) (q : ℚ) (sv : Nat)
    (ns : List Note) (r : MirrorRec)
    (hsn : statusNum si = .num q) (h0 : 0 ≤ q) (h2 : q ≤ 2)
    (htid : tid ≠ "") (hnote : note ≠ "") (hacc : cfg.defaultAccount = some a)
    (henc : encodeUintArg (.num q) = some sv) (hT : env.transport = none)
    (hL : st.ledger.lookup tid = some ns) (hm : env.mirrorFails = false)
    (hr : findMirror st.mirror tid = some r) :
    (updateShipmentStatusWithNote cfg env st tid (some si) note).1.status = 200
    ∧ (updateShipmentStatusWithNote cfg env st tid (some si) note).2.1.ledger.lookup tid =
        some (ns ++ [⟨sv, note, env.blockTime, a⟩])
    ∧ (ns ++ [(⟨sv, note, env.blockTime, a⟩ : Note)]).getLast? =
        some (⟨sv, note, env.blockTime, a⟩ : Note)
    ∧ findMirror (updateShipmentStatusWithNote cfg env st tid (some si) note).2.1.mirror tid =
        some { r with status := statusNameOfNat sv } := by
  have hrun := update_after_checks cfg env st tid si note a q hsn h0 h2 htid hnote hacc
  rw [henc, hT, hL] at hrun
  simp only [hm, if_neg Bool.false_ne_true, hr] at hrun
  have hq : statusName (.num q) = statusNameOfNat sv := by
    rw [statusNameOfNat, encodeUintArg_cast q sv henc]
  refine ⟨?_, ?_, ?_, ?_⟩
  · rw [hrun]
  · rw [hrun]
    simp only
    rw [LedgerState.lookup_append, hL]
    rfl
  · simp
  · rw [hrun]
    simp only
    rw [findMirror_setMirrorStatus, hr, ← hq]
    rfl

/-- Witness for C6: on the concrete test state, appending a `Delivered` note
to `DEMO-TRACK-002` leaves the mirror's cached status equal to the name of
the last note's status. -/
theorem mirror_status_matches_last_note_witness :
    (updateShipmentStatusWithNote testCfg testEnv testState "DEMO-TRACK-002"
        (some (.str "Delivered")) "handed over").1.status = 200
    ∧ findMirror (updateShipmentStatusWithNote testCfg testEnv testState
        "DEMO-TRACK-002" (some (.str "Delivered")) "handed over").2.1.mirror
        "DEMO-TRACK-002" =
      some { mid := "demo-ship-002", medicineId := 2,
             sender := "0xdA5C19BEa562d0e95a533826bA8EF6011dBF7c31",
             receiver := "0xd05A3DFCAa3279FF7b19F10F4b09e66B2F44B229",
             trackingId := "DEMO-TRACK-002",
             status := statusNameOfNat 2,
             createdAt := "2024-01-04T12:30:00Z" } := by
  have h := mirror_status_matches_last_note_after_confirmed_append
    testCfg testEnv testState "DEMO-TRACK-002" (.str "Delivered") "handed over"
    "0xdA5C19BEa562d0e95a533826bA8EF6011dBF7c31" 2 2
    [⟨1, "left warehouse", 1699990000, "0xSigner"⟩]
    ⟨"demo-ship-002", 2, "0xdA5C19BEa562d0e95a533826bA8EF6011dBF7c31",
     "0xd05A3DFCAa3279FF7b19F10F4b09e66B2F44B229", "DEMO-TRACK-002",
     some "InTransit", "2024-01-04T12:30:00Z"⟩
    rfl (by decide) (by decide) (by decide) (by decide) rfl (by decide) rfl
    (by decide) rfl (by decide)
  exact ⟨h.1, h.2.2.2⟩

/-- Counterexample for C8: when the mirror database is unavailable,
`getAllShipments` answers with the mock list — a response identical to the
authoritative response it would give if the mirror really contained those
records, carrying no field at all (let alone a degraded/stale marker): the
substitution is silent and unmarked. -/
theorem getAllShipments_fallback_unmarked :
    getAllShipments true [] = getAllShipments false getMockShipments
    ∧ getAllShipments true [] = ⟨200, .arr getMockShipments⟩
    ∧ (getAllShipments true []).body.hasKey "demo" = false
    ∧ (getAllShipments true []).body.keys = [] := by
  refine ⟨by decide, by decide, by decide, by decide⟩

/-- C8 (amended): only `getMedicineStage` marks its fallback — when the
blockchain call fails it answers with a mock stage carrying `demo: true`,
while its authoritative answer carries no such field; `getAllShipments`'s
fallback to the mock list on a database failure is unmarked and identical to
an authoritative response. -/
theorem degraded_read_markers
    (e : JsError) (stage idParam : String) (idNum : Nat) :
    (idParam ≠ "" → parseIntJs idParam = some idNum →
      getMedicineStage (.error e) idParam =
        ⟨200, .obj [("medicineId", .jnat idNum),
                    ("stage", .jstr (mockStage idNum)),
                    ("demo", .jbool true)]⟩
      ∧ (getMedicineStage (.error e) idParam).body.hasKey "demo" = true)
    ∧ (idParam ≠ "" → parseIntJs idParam = some idNum →
      getMedicineStage (.ok stage) idParam =
        ⟨200, .obj [("medicineId", .jnat idNum), ("stage", .jstr stage)]⟩
      ∧ (getMedicineStage (.ok stage) idParam).body.hasKey "demo" = false)
    ∧ (∀ m : List MirrorRec, getAllShipments true m = ⟨200, .arr getMockShipments⟩) := by
  refine ⟨?_, ?_, fun m => rfl⟩
  · intro hid hparse
    have h : getMedicineStage (.error e) idParam =
        ⟨200, .obj [("medicineId", .jnat idNum),
                    ("stage", .jstr (mockStage idNum)),
                    ("demo", .jbool true)]⟩ := by
      simp [getMedicineStage, hid, hparse]
    exact ⟨h, by rw [h]; rfl⟩
  · intro hid hparse
    have h : getMedicineStage (.ok stage) idParam =
        ⟨200, .obj [("medicineId", .jnat idNum), ("stage", .jstr stage)]⟩ := by
      simp [getMedicineStage, hid, hparse]
    exact ⟨h, by rw [h]; rfl⟩

/-- Witness for C8 (amended): medicine id `"2"` under a failed blockchain
call gets the mock stage marked `demo: true`; the same id with a live call
gets an unmarked authoritative answer. -/
theorem degraded_read_markers_witness :
    getMedicineStage (.error ⟨"connection refused", none⟩) "2" =
      ⟨200, .obj [("medicineId", .jnat 2), ("stage", .jstr "Manufactured"),
                  ("demo", .jbool true)]⟩
    ∧ getMedicineStage (.ok "Manufactured") "2" =
      ⟨200, .obj [("medicineId", .jnat 2), ("stage", .jstr "Manufactured")]⟩
    ∧ getAllShipments true [] = ⟨200, .arr getMockShipments⟩ := by
  have h := degraded_read_markers ⟨"connection refused", none⟩ "Manufactured" "2" 2
  refine ⟨?_, (h.2.1 (by decide) (by decide)).1, h.2.2 []⟩
  have h1 := (h.1 (by decide) (by decide)).1
  rw [h1]
  decide

/-- The validated update handler's response, mirror effect and interaction
trace do not depend on which concrete sender account is configured (only on
its presence). -/
theorem update_response_ignores_sender
    (cfg₁ cfg₂ : WalletCfg) (a₁ a₂ : String)
    (h1 : cfg₁.defaultAccount = some a₁) (h2 : cfg₂.defaultAccount = some a₂)
    (env : Env) (st : SystemState) (tid : String) (status : Option StatusInput)
    (note : String) :
    (updateShipmentStatusWithNote cfg₁ env st tid status note).1 =
      (updateShipmentStatusWithNote cfg₂ env st tid status note).1
    ∧ (updateShipmentStatusWithNote cfg₁ env st tid status note).2.1.mirror =
      (updateShipmentStatusWithNote cfg₂ env st tid status note).2.1.mirror
    ∧ (updateShipmentStatusWithNote cfg₁ env st tid status note).2.2 =
      (updateShipmentStatusWithNote cfg₂ env st tid status note).2.2 := by
  rcases status with _ | si
  · exact ⟨rfl, rfl, rfl⟩
  by_cases htid : tid = ""
  · refine ⟨?_, ?_, ?_⟩ <;> simp [updateShipmentStatusWithNote, htid]
  by_cases hnote : note = ""
  · refine ⟨?_, ?_, ?_⟩ <;> simp [updateShipmentStatusWithNote, hnote]
  rcases hsn : statusNum si with _ | q | name
  · refine ⟨?_, ?_, ?_⟩ <;>
      simp [updateShipmentStatusWithNote, htid, hnote, hsn, isUndef]
  · by_cases hq0 : q < 0
    · refine ⟨?_, ?_, ?_⟩ <;>
        simp [updateShipmentStatusWithNote, htid, hnote, hsn, hq0,
          isUndef, statusNumLt0, statusNumGt2]
    by_cases hq2 : 2 < q
    · refine ⟨?_, ?_, ?_⟩ <;>
        simp [updateShipmentStatusWithNote, htid, hnote, hsn, hq0, hq2,
          isUndef, statusNumLt0, statusNumGt2]
    rw [update_after_checks cfg₁ env st tid si note a₁ q hsn (not_lt.mp hq0)
          (not_lt.mp hq2) htid hnote h1,
        update_after_checks cfg₂ env st tid si note a₂ q hsn (not_lt.mp hq0)
          (not_lt.mp hq2) htid hnote h2]
    rcases encodeUintArg (.num q) with _ | sv
    · exact ⟨rfl, rfl, rfl⟩
    rcases env.transport with _ | e
    · rcases st.ledger.lookup tid with _ | ns
      · exact ⟨rfl, rfl, rfl⟩
      · by_cases hm : env.mirrorFails <;> simp [hm]
    · exact ⟨rfl, rfl, rfl⟩
  · rw [update_protoMember_path cfg₁ env st tid si note a₁ name hsn htid hnote h1,
        update_protoMember_path cfg₂ env st tid si note a₂ name hsn htid hnote h2]
    exact ⟨rfl, rfl, rfl⟩

/-- The signed-transaction variant's response, mirror effect and interaction
trace do not depend on the configured private key at all (the key only flows
into the signature, whose recovered author lands on the ledger). -/
theorem updateV1_response_ignores_key
    (cfg₁ cfg₂ : WalletCfg) (env : Env) (st : SystemState) (tid : String)
    (status : Option StatusInput) (note : String) :
    (updateShipmentStatusWithNoteV1 cfg₁ env st tid status note).1 =
      (updateShipmentStatusWithNoteV1 cfg₂ env st tid status note).1
    ∧ (updateShipmentStatusWithNoteV1 cfg₁ env st tid status note).2.1.mirror =
      (updateShipmentStatusWithNoteV1 cfg₂ env st tid status note).2.1.mirror
    ∧ (updateShipmentStatusWithNoteV1 cfg₁ env st tid status note).2.2 =
      (updateShipmentStatusWithNoteV1 cfg₂ env st tid status note).2.2 := by
  rcases status with _ | si
  · exact ⟨rfl, rfl, rfl⟩
  by_cases htid : tid = ""
  · refine ⟨?_, ?_, ?_⟩ <;> simp [updateShipmentStatusWithNoteV1, htid]
  by_cases hnote : note = ""
  · refine ⟨?_, ?_, ?_⟩ <;> simp [updateShipmentStatusWithNoteV1, hnote]
  rcases hT : env.transport with _ | e
  · rcases henc : encodeUintArg (statusNum si) with _ | sv
    · refine ⟨?_, ?_, ?_⟩ <;>
        simp [updateShipmentStatusWithNoteV1, htid, hnote, hT, henc]
    · rcases hL : st.ledger.lookup tid with _ | ns
      · refine ⟨?_, ?_, ?_⟩ <;>
          simp [updateShipmentStatusWithNoteV1, htid, hnote, hT, henc, hL]
      · by_cases hm : env.mirrorFails <;>
          refine ⟨?_, ?_, ?_⟩ <;>
            simp [updateShipmentStatusWithNoteV1, htid, hnote, hT, henc, hL, hm]
  · refine ⟨?_, ?_, ?_⟩ <;> simp [updateShipmentStatusWithNoteV1, htid, hnote, hT]

/-- C9: the signing credential is consumed only by the startup wallet
initialisation (`initWallet`, executed once at module load) and the
transaction signature: for any two private-key values, both update-handler
variants produce identical responses, identical mirror effects and identical
web3 interaction traces — so no response body can carry (or depend on) the
credential value. -/
theorem credential_noninterference
    (pta : String → String) (k₁ k₂ : String) (addrEnv : Option String)
    (env : Env) (st : SystemState) (tid : String) (status : Option StatusInput)
    (note : String) :
    ((updateShipmentStatusWithNote (initWallet pta (some k₁) addrEnv) env st tid status note).1 =
      (updateShipmentStatusWithNote (initWallet pta (some k₂) addrEnv) env st tid status note).1
    ∧ (updateShipmentStatusWithNote (initWallet pta (some k₁) addrEnv) env st tid status note).2.1.mirror =
      (updateShipmentStatusWithNote (initWallet pta (some k₂) addrEnv) env st tid status note).2.1.mirror
    ∧ (updateShipmentStatusWithNote (initWallet pta (some k₁) addrEnv) env st tid status note).2.2 =
      (updateShipmentStatusWithNote (initWallet pta (some k₂) addrEnv) env st tid status note).2.2)
    ∧ ((updateShipmentStatusWithNoteV1 (initWallet pta (some k₁) addrEnv) env st tid status note).1 =
      (updateShipmentStatusWithNoteV1 (initWallet pta (some k₂) addrEnv) env st tid status note).1
    ∧ (updateShipmentStatusWithNoteV1 (initWallet pta (some k₁) addrEnv) env st tid status note).2.1.mirror =
      (updateShipmentStatusWithNoteV1 (initWallet pta (some k₂) addrEnv) env st tid status note).2.1.mirror
    ∧ (updateShipmentStatusWithNoteV1 (initWallet pta (some k₁) addrEnv) env st tid status note).2.2 =
      (updateShipmentStatusWithNoteV1 (initWallet pta (some k₂) addrEnv) env st tid status note).2.2) := by
  constructor
  · exact update_response_ignores_sender (initWallet pta (some k₁) addrEnv)
      (initWallet pta (some k₂) addrEnv) (pta (normalizeKey k₁)) (pta (normalizeKey k₂))
      rfl rfl env st tid status note
  · exact updateV1_response_ignores_key (initWallet pta (some k₁) addrEnv)
      (initWallet pta (some k₂) addrEnv) env st tid status note

/-- Counterexample for C1: in the interleaving where both concurrent callers
of the signed-transaction update handler execute their
`getTransactionCount` read before either broadcasts, the two submitted
transactions carry the same sequence number (here both nonce 5): the code
has no sequencer serializing the read-modify-broadcast window. -/
theorem nonce_shared_under_interleaving :
    (NonceSim.run NonceSim.racySchedule (NonceSim.init 5)).submitted.map Prod.snd = [5, 5]
    ∧ ¬ ((NonceSim.run NonceSim.racySchedule (NonceSim.init 5)).submitted.map Prod.snd).Nodup
    ∧ (NonceSim.run NonceSim.racySchedule (NonceSim.init 5)).submitted.length = 2 := by
  refine ⟨by decide, by decide, by decide⟩

/-- C1 (amended): when `appendNote` calls are serialized — each caller
completes its nonce read and broadcast before the next starts — every call
is confirmed, the submitted sequence numbers are exactly the gap-free
strictly increasing run `c, c+1, …, c+k-1`, and no two calls share one;
the guarantee is lost under concurrent interleavings (see the
counterexample), because the nonce is read from `getTransactionCount`
without any serialization. -/
theorem sequential_nonces_strictly_increasing_gap_free (c k : Nat) :
    ((NonceSim.run (NonceSim.seqSchedule k) (NonceSim.init c)).submitted.map Prod.snd =
      List.range' c k)
    ∧ (NonceSim.run (NonceSim.seqSchedule k) (NonceSim.init c)).confirmed =
        (NonceSim.run (NonceSim.seqSchedule k) (NonceSim.init c)).submitted
    ∧ List.Pairwise (· < ·)
        ((NonceSim.run (NonceSim.seqSchedule k) (NonceSim.init c)).submitted.map Prod.snd)
    ∧ ((NonceSim.run (NonceSim.seqSchedule k) (NonceSim.init c)).submitted.map Prod.snd).Nodup := by
  have h := NonceSim.run_seqSchedule c k
  have hmap : ((NonceSim.run (NonceSim.seqSchedule k) (NonceSim.init c)).submitted.map Prod.snd =
      List.range' c k) := by
    rw [h]
    simp only [List.map_map]
    rw [List.range'_eq_map_range c k]
    rfl
  refine ⟨hmap, by rw [h], ?_, ?_⟩
  · rw [hmap]
    exact List.pairwise_lt_range' c k
  · rw [hmap]
    exact List.nodup_range' c k

end MediTrace

